import Mathlib

/-!
# Verification of `tensorlayer/layers/convolution/dorefa_conv.py` (`DorefaConv2d`)

Shallow embedding of the DoReFa quantized 2D convolution layer.

The layer is a stateful object: `__init__` populates fields, optionally runs
`build` eagerly, then performs two argument checks; `build` resolves the
channel ordering, expands strides/dilation, and allocates the filter and
(optional) bias parameters; `forward` quantizes the activations and weights
and applies the convolution.

Modelling choices:
* Tensor values are symbolic expressions (`TExpr`): the quantization and
  convolution primitives (`cabs`, `quantize_active`, `quantize_weight`,
  `tf.nn.conv2d`, `tf.nn.bias_add`, the configured activation) are
  uninterpreted constructors, since the claims concern only the dataflow
  (which value is fed where), not the numerics of the external runtime.
* Python's in-place attribute mutation together with exception propagation is
  modelled by functions returning `LayerState × Option Err`: mutations
  performed before a `raise` are kept in the returned state, and the error
  (if any) carried alongside.  Each `raise` site of the source, plus the
  runtime errors of subscripting (`None` subscript → `TypeError`,
  out-of-range index → `IndexError`), gets its own `Err` constructor.
* Python truthiness: `if self.in_channels:` is true iff the value is neither
  `None` nor `0`; initializer objects and functions are always truthy, so
  `b_init`, `act` and `use_gemm` are plain `Bool` flags (present / absent).
-/

namespace Dorefa

/-- Symbolic tensor expressions: the dataflow produced by `forward` and the
parameter tensors allocated by `build`.  Constructors mirror the external
primitives used by the source. -/
inductive TExpr where
  | param (name : String)
  | cabs (t : TExpr)
  | quantize_active (t : TExpr) (bits : Nat)
  | quantize_weight (t : TExpr) (bits : Nat)
  | conv2d (input : TExpr) (filters : TExpr) (strides : List Nat)
      (padding : String) (data_format : String) (dilations : List Nat)
      (name : String)
  | bias_add (value : TExpr) (bias : TExpr) (data_format : String)
  | act_apply (t : TExpr)
deriving Repr, DecidableEq

/-- Error outcomes, one per raise site of the source plus the Python runtime
errors that its subscript expressions can produce.  `useGemmTodo` is the
`Exception("TODO. The current version use tf.matmul for inferencing.")` raised
when `use_gemm` is set; `stridesLen` is the `ValueError("len(strides) should
be 2.")`; `dataFormatErr` is the `Exception("data_format should be either
channels_last or channels_first")`; `subscriptNone` is the `TypeError` from
subscripting `None`; `indexError` is an out-of-range `IndexError`. -/
inductive Err where
  | useGemmTodo
  | stridesLen
  | dataFormatErr
  | subscriptNone
  | indexError
  | attributeError
deriving Repr, DecidableEq

/-- The mutable attribute state of a `DorefaConv2d` object.  Fields set by
`__init__` are always present; fields first assigned in `build`
(`pre_channel`, `filter_shape`, `W`, `b`) are `Option`s, `none` meaning the
attribute does not exist yet.  `registered` records the calls made to the
base class facility `_get_weights` as (name, shape, trainable) triples. -/
structure LayerState where
  name : String
  bitW : Nat
  bitA : Nat
  n_filter : Nat
  filter_size : List Nat
  strides : List Nat
  internal_strides : List Nat
  act : Bool
  padding : String
  use_gemm : Bool
  data_format : String
  dilation_rate : List Nat
  internal_dilation_rate : List Nat
  b_init : Bool
  in_channels : Option Nat
  pre_channel : Option Nat
  filter_shape : Option (Nat × Nat × Nat × Nat)
  W : Option TExpr
  b : Option TExpr
  built : Bool
  registered : List (String × List Nat × Bool)
deriving Repr, DecidableEq

/-- Python truthiness of an optional integer: `None` and `0` are falsy. -/
def truthyOpt : Option Nat → Bool
  | none => false
  | some n => n != 0

/-- `l[i]` for a nonnegative Python index: `IndexError` when out of range. -/
def idx (l : List Nat) (i : Nat) : Except Err Nat :=
  match l.get? i with
  | some v => .ok v
  | none => .error .indexError

/-- `o[-1]` where `o` may be `None`: `TypeError` on `None`, `IndexError` on an
empty list, otherwise the last element. -/
def lastIdx (o : Option (List Nat)) : Except Err Nat :=
  match o with
  | none => .error .subscriptNone
  | some l =>
    match l.getLast? with
    | none => .error .indexError
    | some v => .ok v

/-- `o[1]` where `o` may be `None`. -/
def idx1 (o : Option (List Nat)) : Except Err Nat :=
  match o with
  | none => .error .subscriptNone
  | some l => idx l 1

/-- Modelled from the spec: the `Layer` base class facility
`_get_weights(name, shape, init)` is not part of the source under
verification; per the spec it "allocates, tracks for gradient updates,
returns the tensor", registering an owned, trainable parameter under the
given name.  We record the registration and return a fresh symbolic
parameter tensor. -/
def getWeights (s : LayerState) (name : String) (shape : List Nat) :
    LayerState × TExpr :=
  ({ s with registered := s.registered ++ [(name, shape, true)] },
   TExpr.param name)

/-- The tail of `build` shared by both channel orderings: compute
`filter_shape`, allocate the filter tensor, and (if `b_init` is present)
allocate the bias tensor.  `c` is the resolved `pre_channel` value. -/
def buildTail (s : LayerState) (c : Nat) : LayerState × Option Err :=
  match idx s.filter_size 0 with
  | .error e => (s, some e)
  | .ok f0 =>
    match idx s.filter_size 1 with
    | .error e => (s, some e)
    | .ok f1 =>
      let s := { s with filter_shape := some (f0, f1, c, s.n_filter) }
      let (s, w) := getWeights s "filters" [f0, f1, c, s.n_filter]
      let s := { s with W := some w }
      if s.b_init then
        let (s, bv) := getWeights s "biases" [s.n_filter]
        ({ s with b := some bv }, none)
      else
        (s, none)

/-- `DorefaConv2d.build(self, inputs_shape)`.  Faithful to the source's
statement order: the `data_format` field is rewritten to its canonical tag
*before* the input shape is subscripted, so a failing subscript leaves the
state already mutated.  On the invalid-`data_format` branch the `raise`
happens before any mutation. -/
def build (s0 : LayerState) (inputs_shape : Option (List Nat)) :
    LayerState × Option Err :=
  if s0.data_format = "channels_last" then
    let s1 := { s0 with data_format := "NHWC" }
    match (if truthyOpt s1.in_channels then Except.ok (s1.in_channels.getD 0)
           else lastIdx inputs_shape) with
    | .error e => (s1, some e)
    | .ok c =>
      let s2 := { s1 with pre_channel := some c, in_channels := some c }
      match idx s2.internal_strides 0 with
      | .error e => (s2, some e)
      | .ok a =>
        match idx s2.internal_strides 1 with
        | .error e => (s2, some e)
        | .ok b =>
          let s3 := { s2 with internal_strides := [1, a, b, 1] }
          match idx s3.internal_dilation_rate 0 with
          | .error e => (s3, some e)
          | .ok da =>
            match idx s3.internal_dilation_rate 1 with
            | .error e => (s3, some e)
            | .ok db =>
              buildTail { s3 with internal_dilation_rate := [1, da, db, 1] } c
  else if s0.data_format = "channels_first" then
    let s1 := { s0 with data_format := "NCHW" }
    match (if truthyOpt s1.in_channels then Except.ok (s1.in_channels.getD 0)
           else idx1 inputs_shape) with
    | .error e => (s1, some e)
    | .ok c =>
      let s2 := { s1 with pre_channel := some c, in_channels := some c }
      match idx s2.internal_strides 0 with
      | .error e => (s2, some e)
      | .ok a =>
        match idx s2.internal_strides 1 with
        | .error e => (s2, some e)
        | .ok b =>
          let s3 := { s2 with internal_strides := [1, 1, a, b] }
          match idx s3.internal_dilation_rate 0 with
          | .error e => (s3, some e)
          | .ok da =>
            match idx s3.internal_dilation_rate 1 with
            | .error e => (s3, some e)
            | .ok db =>
              buildTail { s3 with internal_dilation_rate := [1, 1, da, db] } c
  else
    (s0, some .dataFormatErr)

/-- Constructor arguments of `DorefaConv2d.__init__`, with the source's
default values.  The initializer objects `W_init`/`b_init` have no role in
the claims beyond presence, so `b_init : Bool` records whether a bias
initializer was supplied (`False` models passing `None`). -/
structure Config where
  bitW : Nat := 1
  bitA : Nat := 3
  n_filter : Nat := 32
  filter_size : List Nat := [3, 3]
  strides : List Nat := [1, 1]
  act : Bool := false
  padding : String := "SAME"
  use_gemm : Bool := false
  data_format : String := "channels_last"
  dilation_rate : List Nat := [1, 1]
  b_init : Bool := true
  in_channels : Option Nat := none
  name : String := "dorefa_cnn2d"
deriving Repr, DecidableEq

/-- The attribute state right after the field assignments of `__init__`,
before the eager-build step and the argument checks.  Mirrors
`self.strides = self._strides = strides` and
`self.dilation_rate = self._dilation_rate = dilation_rate`. -/
def initState (cfg : Config) : LayerState where
  name := cfg.name
  bitW := cfg.bitW
  bitA := cfg.bitA
  n_filter := cfg.n_filter
  filter_size := cfg.filter_size
  strides := cfg.strides
  internal_strides := cfg.strides
  act := cfg.act
  padding := cfg.padding
  use_gemm := cfg.use_gemm
  data_format := cfg.data_format
  dilation_rate := cfg.dilation_rate
  internal_dilation_rate := cfg.dilation_rate
  b_init := cfg.b_init
  in_channels := cfg.in_channels
  pre_channel := none
  filter_shape := none
  W := none
  b := none
  built := false
  registered := []

/-- `DorefaConv2d.__init__`.  Faithful to the source's statement order:
field assignments, then (if `in_channels` is truthy) `self.build(None)` and
`self._built = True`, then the informational log line (no behavioural
effect), then `raise` on `use_gemm`, then `raise` on `len(strides) != 2`. -/
def init (cfg : Config) : LayerState × Option Err :=
  let s := initState cfg
  let (s, e) :=
    if truthyOpt s.in_channels then
      match build s none with
      | (s', some err) => (s', some err)
      | (s', none) => ({ s' with built := true }, none)
    else
      (s, none)
  match e with
  | some err => (s, some err)
  | none =>
    if s.use_gemm then
      (s, some .useGemmTodo)
    else if s.strides.length ≠ 2 then
      (s, some .stridesLen)
    else
      (s, none)

/-- `DorefaConv2d.forward(self, inputs)`.  Accessing `self.W` (or `self.b`
when `b_init` is present) before `build` has assigned it raises
`AttributeError` in Python, modelled by `Err.attributeError`.  `forward`
performs no attribute assignment, so the state is returned unchanged
alongside the output expression. -/
def forward (s : LayerState) (inputs : TExpr) :
    Except Err (TExpr × LayerState) :=
  let a := TExpr.quantize_active (TExpr.cabs inputs) s.bitA
  match s.W with
  | none => .error .attributeError
  | some w =>
    let w' := TExpr.quantize_weight w s.bitW
    let conv := TExpr.conv2d a w' s.internal_strides s.padding s.data_format
      s.internal_dilation_rate s.name
    match (if s.b_init then
             match s.b with
             | none => Except.error Err.attributeError
             | some bv => Except.ok (TExpr.bias_add conv bv s.data_format)
           else Except.ok conv) with
    | .error e => .error e
    | .ok out2 =>
      let out3 := if s.act then TExpr.act_apply out2 else out2
      .ok (out3, s)

/-- The activation operand handed to the `conv2d` node of an output
expression, looking through the bias-add and activation wrappers that
`forward` may apply on top of the convolution. -/
def convActivationOperand : TExpr → Option TExpr
  | .conv2d a _ _ _ _ _ _ => some a
  | .bias_add t _ _ => convActivationOperand t
  | .act_apply t => convActivationOperand t
  | _ => none

/-- Whether an expression contains a `bias_add` node anywhere. -/
def hasBiasAdd : TExpr → Bool
  | .param _ => false
  | .cabs t => hasBiasAdd t
  | .quantize_active t _ => hasBiasAdd t
  | .quantize_weight t _ => hasBiasAdd t
  | .conv2d a f _ _ _ _ _ => hasBiasAdd a || hasBiasAdd f
  | .bias_add _ _ _ => true
  | .act_apply t => hasBiasAdd t

/-- Strip the optional outer activation application. -/
def stripAct : TExpr → TExpr
  | .act_apply t => stripAct t
  | t => t

/-- Whether an expression is a bias-add applied directly to a convolution. -/
def isBiasOverConv : TExpr → Bool
  | .bias_add (.conv2d _ _ _ _ _ _ _) _ _ => true
  | _ => false

/-- The filters operand handed to the `conv2d` node of an output expression,
looking through the bias-add and activation wrappers. -/
def convFilterOperand : TExpr → Option TExpr
  | .conv2d _ f _ _ _ _ _ => some f
  | .bias_add t _ _ => convFilterOperand t
  | .act_apply t => convFilterOperand t
  | _ => none

/-- The convolution node `forward` constructs from state `s`, input `x` and
stored weight `w`: activation operand `quantize_active(cabs x, bitA)`,
filters operand `quantize_weight(w, bitW)`. -/
def convOf (s : LayerState) (x w : TExpr) : TExpr :=
  TExpr.conv2d (TExpr.quantize_active (TExpr.cabs x) s.bitA)
    (TExpr.quantize_weight w s.bitW) s.internal_strides s.padding
    s.data_format s.internal_dilation_rate s.name

/-- `n` successive `forward` calls on the same layer object: each successful
call threads the (returned) state to the next; a raising call leaves the
state as it was, ending the run. -/
def forwardN : Nat → LayerState → TExpr → LayerState
  | 0, s, _ => s
  | n + 1, s, x =>
    match forward s x with
    | .ok (_, s') => forwardN n s' x
    | .error _ => s

/-- A configuration with an explicit input-channel count, so that `build`
runs eagerly inside the constructor.  Used for concrete instantiations. -/
def cfgEager : Config := { in_channels := some 3 }

/-- The layer object produced by `DorefaConv2d(in_channels=3)`: built, with
bias. -/
def builtEager : LayerState := (init cfgEager).1

/-- A bias-free configuration (`b_init=None`) with distinctive strides and
dilation, channels-first ordering. -/
def cfgFirst : Config :=
  { strides := [2, 3], dilation_rate := [4, 5], b_init := false,
    data_format := "channels_first", in_channels := some 7 }

/-- The built layer object for `cfgFirst`. -/
def builtFirst : LayerState := (init cfgFirst).1

/-- A channels-last configuration with distinctive strides and dilation. -/
def cfgLast : Config :=
  { strides := [2, 3], dilation_rate := [4, 5], in_channels := some 7 }

/-- The output expression of `forward` on `builtEager` with input
`param "x"`: bias-add over the convolution of the quantized activation and
the quantized weight. -/
def outEager : TExpr :=
  TExpr.bias_add
    (TExpr.conv2d (TExpr.quantize_active (TExpr.cabs (.param "x")) 3)
      (TExpr.quantize_weight (.param "filters") 1) [1, 1, 1, 1] "SAME"
      "NHWC" [1, 1, 1, 1] "dorefa_cnn2d")
    (.param "biases") "NHWC"

/-! ## Helper lemmas about the subscript models -/

lemma idx_error {l : List Nat} {i : Nat} {e : Err} (h : idx l i = .error e) :
    e = .indexError := by
  unfold idx at h
  cases hg : l.get? i <;> rw [hg] at h <;> simp_all

lemma lastIdx_error {o : Option (List Nat)} {e : Err}
    (h : lastIdx o = .error e) : e = .subscriptNone ∨ e = .indexError := by
  cases o with
  | none =>
    simp only [lastIdx] at h
    simp_all
  | some l =>
    simp only [lastIdx] at h
    cases hg : l.getLast? <;> rw [hg] at h <;> simp_all

lemma idx1_error {o : Option (List Nat)} {e : Err}
    (h : idx1 o = .error e) : e = .subscriptNone ∨ e = .indexError := by
  unfold idx1 at h
  cases o with
  | none => simp_all
  | some l => exact Or.inr (idx_error h)

lemma idx_ok {l : List Nat} {i v : Nat} (h : idx l i = .ok v) :
    l.get? i = some v := by
  unfold idx at h
  cases hg : l.get? i <;> rw [hg] at h <;> simp_all

lemma lastIdx_ok {l : List Nat} {v : Nat} (h : lastIdx (some l) = .ok v) :
    l.getLast? = some v := by
  simp only [lastIdx] at h
  cases hg : l.getLast? <;> rw [hg] at h <;> simp_all

/-! ## Computational equations for `forward` -/

lemma forward_noW {s : LayerState} (x : TExpr) (hW : s.W = none) :
    forward s x = .error .attributeError := by
  unfold forward; rw [hW]

lemma forward_nob {s : LayerState} (x : TExpr) {w : TExpr}
    (hW : s.W = some w) (hbi : s.b_init = true) (hb : s.b = none) :
    forward s x = .error .attributeError := by
  unfold forward; rw [hW]; simp [hbi, hb]

lemma forward_eq_nobias {s : LayerState} (x : TExpr) {w : TExpr}
    (hW : s.W = some w) (hbi : s.b_init = false) :
    forward s x =
      .ok ((if s.act then TExpr.act_apply (convOf s x w) else convOf s x w),
        s) := by
  unfold forward; rw [hW]; simp [hbi, convOf]

lemma forward_eq_bias {s : LayerState} (x : TExpr) {w bv : TExpr}
    (hW : s.W = some w) (hbi : s.b_init = true) (hb : s.b = some bv) :
    forward s x =
      .ok ((if s.act then
              TExpr.act_apply (.bias_add (convOf s x w) bv s.data_format)
            else
              TExpr.bias_add (convOf s x w) bv s.data_format), s) := by
  unfold forward; rw [hW]; simp [hbi, hb, convOf]

/-- Any successful `forward` call leaves the state unchanged and feeds
`quantize_active(cabs x, bitA)` to the convolution's activation operand and
`quantize_weight(W, bitW)` to its filters operand. -/
lemma forward_ok_shape {s : LayerState} {x out : TExpr} {s' : LayerState}
    (h : forward s x = .ok (out, s')) :
    s' = s ∧
    convActivationOperand out =
      some (.quantize_active (.cabs x) s.bitA) ∧
    ∀ w, s.W = some w →
      convFilterOperand out = some (.quantize_weight w s.bitW) := by
  cases hW : s.W with
  | none => rw [forward_noW x hW] at h; exact absurd h (by simp)
  | some w =>
    by_cases hbi : s.b_init
    · cases hb : s.b with
      | none => rw [forward_nob x hW hbi hb] at h; exact absurd h (by simp)
      | some bv =>
        rw [forward_eq_bias x hW hbi hb] at h
        simp only [Except.ok.injEq, Prod.mk.injEq] at h
        obtain ⟨h1, h2⟩ := h
        subst h1; subst h2
        refine ⟨rfl, ?_, ?_⟩
        · by_cases ha : s.act <;>
            simp [ha, convActivationOperand, convOf]
        · intro w' hw'
          rw [Option.some.injEq] at hw'
          subst hw'
          by_cases ha : s.act <;> simp [ha, convFilterOperand, convOf]
    · rw [forward_eq_nobias x hW (by simpa using hbi)] at h
      simp only [Except.ok.injEq, Prod.mk.injEq] at h
      obtain ⟨h1, h2⟩ := h
      subst h1; subst h2
      refine ⟨rfl, ?_, ?_⟩
      · by_cases ha : s.act <;>
          simp [ha, convActivationOperand, convOf]
      · intro w' hw'
        rw [Option.some.injEq] at hw'
        subst hw'
        by_cases ha : s.act <;> simp [ha, convFilterOperand, convOf]

/-! ## Characterization of `build` -/

/-- Invalid channel ordering: `build` raises without touching the state. -/
lemma build_not_valid {s : LayerState} (shape : Option (List Nat))
    (h1 : s.data_format ≠ "channels_last")
    (h2 : s.data_format ≠ "channels_first") :
    build s shape = (s, some .dataFormatErr) := by
  unfold build
  rw [if_neg h1, if_neg h2]

/-- Full characterization of a successful `build` in channels-last mode. -/
lemma build_last_ok {s s' : LayerState} {shape : Option (List Nat)}
    (hdf : s.data_format = "channels_last")
    (h : build s shape = (s', none)) :
    ∃ c sa sb da db f0 f1,
      (if truthyOpt s.in_channels then Except.ok (s.in_channels.getD 0)
       else lastIdx shape) = .ok c ∧
      idx s.internal_strides 0 = .ok sa ∧
      idx s.internal_strides 1 = .ok sb ∧
      idx s.internal_dilation_rate 0 = .ok da ∧
      idx s.internal_dilation_rate 1 = .ok db ∧
      idx s.filter_size 0 = .ok f0 ∧
      idx s.filter_size 1 = .ok f1 ∧
      s' = { s with
        data_format := "NHWC",
        pre_channel := some c,
        in_channels := some c,
        internal_strides := [1, sa, sb, 1],
        internal_dilation_rate := [1, da, db, 1],
        filter_shape := some (f0, f1, c, s.n_filter),
        W := some (.param "filters"),
        b := if s.b_init then some (.param "biases") else s.b,
        registered := s.registered ++
          (("filters", [f0, f1, c, s.n_filter], true) ::
            (if s.b_init then [("biases", [s.n_filter], true)] else [])) } := by
  unfold build at h
  rw [hdf] at h
  rw [if_pos rfl] at h
  simp only [] at h
  split at h
  · simp at h
  next c hc =>
    split at h
    · simp at h
    next sa hsa =>
      split at h
      · simp at h
      next sb hsb =>
        split at h
        · simp at h
        next da hda =>
          split at h
          · simp at h
          next db hdb =>
            unfold buildTail getWeights at h
            split at h
            · simp at h
            next f0 hf0 =>
              split at h
              · simp at h
              next f1 hf1 =>
                by_cases hb : s.b_init <;>
                  simp only [hb, if_true, Bool.false_eq_true, if_false,
                    Prod.mk.injEq, and_true] at h
                all_goals {
                  refine ⟨c, sa, sb, da, db, f0, f1, ?_, hsa, hsb, hda, hdb,
                    hf0, hf1, ?_⟩
                  · exact hc
                  · rw [← h]
                    simp [hb, List.append_assoc]
                }

/-- Full characterization of a successful `build` in channels-first mode. -/
lemma build_first_ok {s s' : LayerState} {shape : Option (List Nat)}
    (hdf : s.data_format = "channels_first")
    (h : build s shape = (s', none)) :
    ∃ c sa sb da db f0 f1,
      (if truthyOpt s.in_channels then Except.ok (s.in_channels.getD 0)
       else idx1 shape) = .ok c ∧
      idx s.internal_strides 0 = .ok sa ∧
      idx s.internal_strides 1 = .ok sb ∧
      idx s.internal_dilation_rate 0 = .ok da ∧
      idx s.internal_dilation_rate 1 = .ok db ∧
      idx s.filter_size 0 = .ok f0 ∧
      idx s.filter_size 1 = .ok f1 ∧
      s' = { s with
        data_format := "NCHW",
        pre_channel := some c,
        in_channels := some c,
        internal_strides := [1, 1, sa, sb],
        internal_dilation_rate := [1, 1, da, db],
        filter_shape := some (f0, f1, c, s.n_filter),
        W := some (.param "filters"),
        b := if s.b_init then some (.param "biases") else s.b,
        registered := s.registered ++
          (("filters", [f0, f1, c, s.n_filter], true) ::
            (if s.b_init then [("biases", [s.n_filter], true)] else [])) } := by
  have hne : s.data_format ≠ "channels_last" := by rw [hdf]; decide
  unfold build at h
  rw [if_neg hne, hdf] at h
  rw [if_pos rfl] at h
  simp only [] at h
  split at h
  · simp at h
  next c hc =>
    split at h
    · simp at h
    next sa hsa =>
      split at h
      · simp at h
      next sb hsb =>
        split at h
        · simp at h
        next da hda =>
          split at h
          · simp at h
          next db hdb =>
            unfold buildTail getWeights at h
            split at h
            · simp at h
            next f0 hf0 =>
              split at h
              · simp at h
              next f1 hf1 =>
                by_cases hb : s.b_init <;>
                  simp only [hb, if_true, Bool.false_eq_true, if_false,
                    Prod.mk.injEq, and_true] at h
                all_goals {
                  refine ⟨c, sa, sb, da, db, f0, f1, ?_, hsa, hsb, hda, hdb,
                    hf0, hf1, ?_⟩
                  · exact hc
                  · rw [← h]
                    simp [hb, List.append_assoc]
                }

/-- Frame property of a failing `build`: no parameter is allocated or
registered and the filter shape is not set — every `raise` site of `build`
is reached before `_get_weights` and before `filter_shape` is assigned. -/
lemma build_err_frame {s s' : LayerState} {shape : Option (List Nat)}
    {e : Err} (h : build s shape = (s', some e)) :
    s'.W = s.W ∧ s'.b = s.b ∧ s'.registered = s.registered ∧
    s'.filter_shape = s.filter_shape ∧ s'.built = s.built := by
  unfold build at h
  split at h
  · simp only [] at h
    split at h
    · simp only [Prod.mk.injEq] at h
      obtain ⟨rfl, -⟩ := h
      exact ⟨rfl, rfl, rfl, rfl, rfl⟩
    · split at h
      · simp only [Prod.mk.injEq] at h
        obtain ⟨rfl, -⟩ := h
        exact ⟨rfl, rfl, rfl, rfl, rfl⟩
      · split at h
        · simp only [Prod.mk.injEq] at h
          obtain ⟨rfl, -⟩ := h
          exact ⟨rfl, rfl, rfl, rfl, rfl⟩
        · split at h
          · simp only [Prod.mk.injEq] at h
            obtain ⟨rfl, -⟩ := h
            exact ⟨rfl, rfl, rfl, rfl, rfl⟩
          · split at h
            · simp only [Prod.mk.injEq] at h
              obtain ⟨rfl, -⟩ := h
              exact ⟨rfl, rfl, rfl, rfl, rfl⟩
            · unfold buildTail getWeights at h
              split at h
              · simp only [Prod.mk.injEq] at h
                obtain ⟨rfl, -⟩ := h
                exact ⟨rfl, rfl, rfl, rfl, rfl⟩
              · split at h
                · simp only [Prod.mk.injEq] at h
                  obtain ⟨rfl, -⟩ := h
                  exact ⟨rfl, rfl, rfl, rfl, rfl⟩
                · simp only [] at h; split at h <;> simp at h
  · split at h
    · simp only [] at h
      split at h
      · simp only [Prod.mk.injEq] at h
        obtain ⟨rfl, -⟩ := h
        exact ⟨rfl, rfl, rfl, rfl, rfl⟩
      · split at h
        · simp only [Prod.mk.injEq] at h
          obtain ⟨rfl, -⟩ := h
          exact ⟨rfl, rfl, rfl, rfl, rfl⟩
        · split at h
          · simp only [Prod.mk.injEq] at h
            obtain ⟨rfl, -⟩ := h
            exact ⟨rfl, rfl, rfl, rfl, rfl⟩
          · split at h
            · simp only [Prod.mk.injEq] at h
              obtain ⟨rfl, -⟩ := h
              exact ⟨rfl, rfl, rfl, rfl, rfl⟩
            · split at h
              · simp only [Prod.mk.injEq] at h
                obtain ⟨rfl, -⟩ := h
                exact ⟨rfl, rfl, rfl, rfl, rfl⟩
              · unfold buildTail getWeights at h
                split at h
                · simp only [Prod.mk.injEq] at h
                  obtain ⟨rfl, -⟩ := h
                  exact ⟨rfl, rfl, rfl, rfl, rfl⟩
                · split at h
                  · simp only [Prod.mk.injEq] at h
                    obtain ⟨rfl, -⟩ := h
                    exact ⟨rfl, rfl, rfl, rfl, rfl⟩
                  · simp only [] at h; split at h <;> simp at h
    · simp only [Prod.mk.injEq] at h
      obtain ⟨rfl, -⟩ := h
      exact ⟨rfl, rfl, rfl, rfl, rfl⟩

/-- Fields of the state after a successful `build`: untouched configuration
fields, canonicalized `data_format`, allocated parameters. -/
lemma build_ok_fields {s s' : LayerState} {shape : Option (List Nat)}
    (h : build s shape = (s', none)) :
    s'.use_gemm = s.use_gemm ∧ s'.strides = s.strides ∧
    s'.b_init = s.b_init ∧ s'.n_filter = s.n_filter ∧
    s'.bitA = s.bitA ∧ s'.bitW = s.bitW ∧ s'.act = s.act ∧
    (s'.data_format = "NHWC" ∨ s'.data_format = "NCHW") ∧
    s'.W = some (.param "filters") ∧
    s'.b = (if s.b_init then some (.param "biases") else s.b) := by
  by_cases h1 : s.data_format = "channels_last"
  · obtain ⟨c, sa, sb, da, db, f0, f1, -, -, -, -, -, -, -, rfl⟩ :=
      build_last_ok h1 h
    exact ⟨rfl, rfl, rfl, rfl, rfl, rfl, rfl, Or.inl rfl, rfl, rfl⟩
  · by_cases h2 : s.data_format = "channels_first"
    · obtain ⟨c, sa, sb, da, db, f0, f1, -, -, -, -, -, -, -, rfl⟩ :=
        build_first_ok h2 h
      exact ⟨rfl, rfl, rfl, rfl, rfl, rfl, rfl, Or.inr rfl, rfl, rfl⟩
    · rw [build_not_valid shape h1 h2] at h
      exact absurd h (by simp)

/-- The registration trace of a successful `build`: the filter parameter is
registered under "filters", and under "biases" (with shape `(n_filter,)`)
exactly when `b_init` is present. -/
lemma build_ok_registered {s s' : LayerState} {shape : Option (List Nat)}
    (h : build s shape = (s', none)) :
    ∃ fsh, s'.registered = s.registered ++
      (("filters", fsh, true) ::
        (if s.b_init then [("biases", [s.n_filter], true)] else [])) := by
  by_cases h1 : s.data_format = "channels_last"
  · obtain ⟨c, sa, sb, da, db, f0, f1, -, -, -, -, -, -, -, rfl⟩ :=
      build_last_ok h1 h
    exact ⟨[f0, f1, c, s.n_filter], rfl⟩
  · by_cases h2 : s.data_format = "channels_first"
    · obtain ⟨c, sa, sb, da, db, f0, f1, -, -, -, -, -, -, -, rfl⟩ :=
        build_first_ok h2 h
      exact ⟨[f0, f1, c, s.n_filter], rfl⟩
    · rw [build_not_valid shape h1 h2] at h
      exact absurd h (by simp)

/-! ## Computational equations for `init` -/

lemma init_err_of_build_err {cfg : Config} {s1 : LayerState} {e : Err}
    (ht : truthyOpt cfg.in_channels = true)
    (hB : build (initState cfg) none = (s1, some e)) :
    init cfg = (s1, some e) := by
  unfold init
  simp only []
  rw [show truthyOpt (initState cfg).in_channels = true from ht, if_pos rfl,
    hB]

lemma init_of_build_ok {cfg : Config} {s1 : LayerState}
    (ht : truthyOpt cfg.in_channels = true)
    (hB : build (initState cfg) none = (s1, none)) :
    init cfg =
      (if s1.use_gemm then ({ s1 with built := true }, some Err.useGemmTodo)
       else if s1.strides.length ≠ 2 then
         ({ s1 with built := true }, some Err.stridesLen)
       else ({ s1 with built := true }, none)) := by
  unfold init
  simp only []
  rw [show truthyOpt (initState cfg).in_channels = true from ht, if_pos rfl,
    hB]

lemma init_lazy {cfg : Config} (ht : truthyOpt cfg.in_channels = false) :
    init cfg =
      (if cfg.use_gemm then (initState cfg, some Err.useGemmTodo)
       else if cfg.strides.length ≠ 2 then (initState cfg, some Err.stridesLen)
       else (initState cfg, none)) := by
  unfold init
  simp only []
  rw [show truthyOpt (initState cfg).in_channels = false from ht]
  simp only [Bool.false_eq_true, if_false]
  rfl

/-! ## The claims -/

/-- C1: for every input tensor, the value passed as the activation operand of
the convolution in `forward` equals `quantize_activation(clipped_abs(input),
bitA)` — the clipped-absolute transform is applied before bitA-bit
quantization, never after it. -/
theorem claim_C1_quantization_order (s : LayerState) (x out : TExpr)
    (s' : LayerState) (h : forward s x = .ok (out, s')) :
    convActivationOperand out =
      some (.quantize_active (.cabs x) s.bitA) ∧
    convActivationOperand out ≠
      some (.cabs (.quantize_active x s.bitA)) := by
  obtain ⟨-, h2, -⟩ := forward_ok_shape h
  refine ⟨h2, ?_⟩
  rw [h2]
  simp

/-- Witness for C1 at the eagerly built layer and input `param "x"`. -/
theorem claim_C1_witness :
    convActivationOperand outEager =
      some (.quantize_active (.cabs (.param "x")) 3) ∧
    convActivationOperand outEager ≠
      some (.cabs (.quantize_active (.param "x") 3)) :=
  claim_C1_quantization_order builtEager (.param "x") outEager builtEager
    rfl

/-- C3: `forward` mutates no layer state: the state after a successful call
is the state before it (in particular the stored Filter and Bias tensors are
unchanged, for any number of calls), and the convolution consumes only the
transient quantized copy `quantize_weight(W, bitW)` of the stored filter. -/
theorem claim_C3_forward_no_mutation (s : LayerState) (x out : TExpr)
    (s' : LayerState) (h : forward s x = .ok (out, s')) :
    s' = s ∧ s'.W = s.W ∧ s'.b = s.b ∧
    (∀ w, s.W = some w →
      convFilterOperand out = some (.quantize_weight w s.bitW)) ∧
    ∀ n, forwardN n s x = s := by
  obtain ⟨h1, -, h3⟩ := forward_ok_shape h
  subst h1
  refine ⟨rfl, rfl, rfl, h3, ?_⟩
  intro n
  induction n with
  | zero => rfl
  | succ n ih => simp [forwardN, h, ih]

/-- Witness for C3: five forward calls on the eagerly built layer leave the
state exactly as it was. -/
theorem claim_C3_witness : forwardN 5 builtEager (.param "x") = builtEager :=
  (claim_C3_forward_no_mutation builtEager (.param "x") outEager builtEager
    rfl).2.2.2.2 5

/-- C6: a `build` invocation whose `data_format` is neither `channels_last`
nor `channels_first` fails with the invalid-data_format error. -/
theorem claim_C6_invalid_data_format (s : LayerState)
    (shape : Option (List Nat)) (h1 : s.data_format ≠ "channels_last")
    (h2 : s.data_format ≠ "channels_first") :
    (build s shape).2 = some Err.dataFormatErr := by
  rw [build_not_valid shape h1 h2]

/-- Witness for C6: `data_format="channels_middle"` fails in `build`. -/
theorem claim_C6_witness :
    (build (initState { data_format := "channels_middle" }) none).2 =
      some Err.dataFormatErr :=
  claim_C6_invalid_data_format _ none (by decide) (by decide)

/-- C10: once `build` has completed successfully it has rewritten
`data_format` in place to its canonical 4-axis tag (`NHWC` or `NCHW`), which
the build-time guard does not accept, so every subsequent `build` call raises
the invalid-data_format error regardless of the input shape supplied. -/
theorem claim_C10_rebuild_always_fails (s s' : LayerState)
    (shape : Option (List Nat)) (h : build s shape = (s', none))
    (shape2 : Option (List Nat)) :
    build s' shape2 = (s', some Err.dataFormatErr) := by
  obtain ⟨-, -, -, -, -, -, -, hdf, -, -⟩ := build_ok_fields h
  rcases hdf with hdf | hdf <;>
    exact build_not_valid shape2 (by rw [hdf]; decide) (by rw [hdf]; decide)

/-- Witness for C10: rebuilding the eagerly built layer fails even on a
well-formed 4-axis input shape. -/
theorem claim_C10_witness :
    build (build (initState cfgEager) none).1 (some [1, 8, 8, 3]) =
      ((build (initState cfgEager) none).1, some Err.dataFormatErr) :=
  claim_C10_rebuild_always_fails (initState cfgEager)
    (build (initState cfgEager) none).1 none rfl (some [1, 8, 8, 3])

/-- C2: `build` expands the 2-element strides and dilation_rate into
4-element internal forms by inserting 1 at the batch and channel axes:
`(1, sh, sw, 1)` for channels_last and `(1, 1, sh, sw)` for channels_first;
the same rule applies to dilation. -/
theorem claim_C2_stride_dilation_expansion (s s' : LayerState)
    (shape : Option (List Nat)) (sh sw dh dw : Nat)
    (hs : s.internal_strides = [sh, sw])
    (hd : s.internal_dilation_rate = [dh, dw])
    (h : build s shape = (s', none)) :
    (s.data_format = "channels_last" →
      s'.internal_strides = [1, sh, sw, 1] ∧
      s'.internal_dilation_rate = [1, dh, dw, 1]) ∧
    (s.data_format = "channels_first" →
      s'.internal_strides = [1, 1, sh, sw] ∧
      s'.internal_dilation_rate = [1, 1, dh, dw]) := by
  constructor
  · intro hdf
    obtain ⟨c, sa, sb, da, db, f0, f1, -, hsa, hsb, hda, hdb, -, -, rfl⟩ :=
      build_last_ok hdf h
    rw [hs] at hsa hsb
    rw [hd] at hda hdb
    simp [idx] at hsa hsb hda hdb
    simp [hsa, hsb, hda, hdb]
  · intro hdf
    obtain ⟨c, sa, sb, da, db, f0, f1, -, hsa, hsb, hda, hdb, -, -, rfl⟩ :=
      build_first_ok hdf h
    rw [hs] at hsa hsb
    rw [hd] at hda hdb
    simp [idx] at hsa hsb hda hdb
    simp [hsa, hsb, hda, hdb]

/-- Witness for C2, exercising both channel orderings with strides (2, 3)
and dilation (4, 5). -/
theorem claim_C2_witness :
    ((build (initState cfgLast) none).1.internal_strides = [1, 2, 3, 1] ∧
     (build (initState cfgLast) none).1.internal_dilation_rate =
       [1, 4, 5, 1]) ∧
    ((build (initState cfgFirst) none).1.internal_strides = [1, 1, 2, 3] ∧
     (build (initState cfgFirst) none).1.internal_dilation_rate =
       [1, 1, 4, 5]) :=
  ⟨(claim_C2_stride_dilation_expansion (initState cfgLast)
      (build (initState cfgLast) none).1 none 2 3 4 5 rfl rfl rfl).1 rfl,
   (claim_C2_stride_dilation_expansion (initState cfgFirst)
      (build (initState cfgFirst) none).1 none 2 3 4 5 rfl rfl rfl).2 rfl⟩

/-- C8: the resolved input-channel count equals the explicitly configured
`in_channels` when one was supplied (as a positive count); otherwise it is
read from `inputs_shape` at the last axis for channels_last and at index 1
for channels_first. -/
theorem claim_C8_channel_resolution (s s' : LayerState)
    (shape : Option (List Nat)) (h : build s shape = (s', none)) :
    (∀ c, s.in_channels = some c → 0 < c →
      s'.pre_channel = some c ∧ s'.in_channels = some c) ∧
    (s.in_channels = none →
      (s.data_format = "channels_last" → ∀ l, shape = some l →
        s'.pre_channel = l.getLast? ∧ s'.in_channels = l.getLast?) ∧
      (s.data_format = "channels_first" → ∀ l, shape = some l →
        s'.pre_channel = l.get? 1 ∧ s'.in_channels = l.get? 1)) := by
  by_cases hdf : s.data_format = "channels_last"
  · obtain ⟨c0, sa, sb, da, db, f0, f1, hc, -, -, -, -, -, -, rfl⟩ :=
      build_last_ok hdf h
    constructor
    · intro c hin hpos
      rw [hin] at hc
      simp [truthyOpt, hpos.ne'] at hc
      simp [hc]
    · intro hin
      rw [hin] at hc
      simp [truthyOpt] at hc
      constructor
      · intro _ l hl
        subst hl
        rw [lastIdx_ok hc]
        exact ⟨rfl, rfl⟩
      · intro hdf2
        rw [hdf] at hdf2
        exact absurd hdf2 (by decide)
  · by_cases hdf2 : s.data_format = "channels_first"
    · obtain ⟨c0, sa, sb, da, db, f0, f1, hc, -, -, -, -, -, -, rfl⟩ :=
        build_first_ok hdf2 h
      constructor
      · intro c hin hpos
        rw [hin] at hc
        simp [truthyOpt, hpos.ne'] at hc
        simp [hc]
      · intro hin
        rw [hin] at hc
        simp [truthyOpt] at hc
        constructor
        · intro hdfl
          rw [hdf2] at hdfl
          exact absurd hdfl (by decide)
        · intro _ l hl
          subst hl
          simp only [idx1] at hc
          rw [idx_ok hc]
          exact ⟨rfl, rfl⟩
    · rw [build_not_valid shape hdf hdf2] at h
      exact absurd h (by simp)

/-- Witness for C8: explicit `in_channels=3`; and defaults (no explicit
`in_channels`) with a channels_last input shape, channel taken from the
last axis. -/
theorem claim_C8_witness :
    ((build (initState cfgEager) none).1.pre_channel = some 3 ∧
     (build (initState cfgEager) none).1.in_channels = some 3) ∧
    ((build (initState ({} : Config)) (some [1, 8, 8, 5])).1.pre_channel =
       [1, 8, 8, 5].getLast? ∧
     (build (initState ({} : Config)) (some [1, 8, 8, 5])).1.in_channels =
       [1, 8, 8, 5].getLast?) :=
  ⟨(claim_C8_channel_resolution (initState cfgEager)
      (build (initState cfgEager) none).1 none rfl).1 3 rfl (by decide),
   ((claim_C8_channel_resolution (initState ({} : Config))
      (build (initState ({} : Config)) (some [1, 8, 8, 5])).1
      (some [1, 8, 8, 5]) rfl).2 rfl).1 rfl [1, 8, 8, 5] rfl⟩

/-- C7: when `b_init` is explicitly absent, `build` allocates no bias tensor
and `forward` applies no bias-add (the output is the bare convolution,
possibly under the configured activation); when `b_init` is present, `build`
allocates a bias tensor of shape `(n_filter,)` registered as the trainable
parameter "biases" and `forward` adds it directly after the convolution. -/
theorem claim_C7_bias_handling (s s' : LayerState) (shape : Option (List Nat))
    (hreg : s.registered = []) (hb0 : s.b = none)
    (h : build s shape = (s', none)) :
    (s.b_init = false →
      s'.b = none ∧
      s'.registered.map (fun p => p.1) = ["filters"] ∧
      ∀ x out s'', forward s' x = .ok (out, s'') →
        stripAct out = convOf s' x (.param "filters") ∧
        isBiasOverConv (stripAct out) = false) ∧
    (s.b_init = true →
      s'.b = some (.param "biases") ∧
      ("biases", [s.n_filter], true) ∈ s'.registered ∧
      s'.registered.map (fun p => p.1) = ["filters", "biases"] ∧
      ∀ x out s'', forward s' x = .ok (out, s'') →
        stripAct out = .bias_add (convOf s' x (.param "filters"))
          (.param "biases") s'.data_format ∧
        isBiasOverConv (stripAct out) = true) := by
  obtain ⟨-, -, hbinit, -, -, -, -, -, hW, hb⟩ := build_ok_fields h
  obtain ⟨fsh, hregd⟩ := build_ok_registered h
  constructor
  · intro hbf
    rw [hbf] at hb
    simp only [Bool.false_eq_true, if_false] at hb
    refine ⟨by rw [hb, hb0], by rw [hregd, hreg, hbf]; simp, ?_⟩
    intro x out s'' hf
    rw [forward_eq_nobias x hW (by rw [hbinit, hbf])] at hf
    simp only [Except.ok.injEq, Prod.mk.injEq] at hf
    obtain ⟨rfl, -⟩ := hf
    by_cases ha : s'.act <;> simp [ha, stripAct, isBiasOverConv, convOf]
  · intro hbt
    rw [hbt] at hb
    simp only [if_true] at hb
    refine ⟨hb, by rw [hregd, hreg, hbt]; simp,
      by rw [hregd, hreg, hbt]; simp, ?_⟩
    intro x out s'' hf
    rw [forward_eq_bias x hW (by rw [hbinit, hbt]) hb] at hf
    simp only [Except.ok.injEq, Prod.mk.injEq] at hf
    obtain ⟨rfl, -⟩ := hf
    by_cases ha : s'.act <;> simp [ha, stripAct, isBiasOverConv, convOf]

/-- Witness for C7: with bias (`cfgEager`), the bias tensor exists, "biases"
of shape (32,) is registered trainable, and the forward output is a bias-add
over the convolution; without bias (`cfgFirst`), no bias tensor exists and
only "filters" is registered. -/
theorem claim_C7_witness :
    ((build (initState cfgEager) none).1.b = some (.param "biases") ∧
     ("biases", [32], true) ∈ (build (initState cfgEager) none).1.registered ∧
     isBiasOverConv (stripAct outEager) = true) ∧
    ((build (initState cfgFirst) none).1.b = none ∧
     (build (initState cfgFirst) none).1.registered.map (fun p => p.1) =
       ["filters"]) :=
  ⟨⟨((claim_C7_bias_handling (initState cfgEager)
        (build (initState cfgEager) none).1 none rfl rfl rfl).2 rfl).1,
    ((claim_C7_bias_handling (initState cfgEager)
        (build (initState cfgEager) none).1 none rfl rfl rfl).2 rfl).2.1,
    (((claim_C7_bias_handling (initState cfgEager)
        (build (initState cfgEager) none).1 none rfl rfl rfl).2 rfl).2.2.2
      (.param "x") outEager (build (initState cfgEager) none).1 rfl).2⟩,
   ⟨((claim_C7_bias_handling (initState cfgFirst)
        (build (initState cfgFirst) none).1 none rfl rfl rfl).1 rfl).1,
    ((claim_C7_bias_handling (initState cfgFirst)
        (build (initState cfgFirst) none).1 none rfl rfl rfl).1 rfl).2.1⟩⟩

/-- C4 counterexample: constructing with strides of length 3 while also
selecting `use_gemm` fails with the gemm `Exception`, not with the strides
`ValueError` — the `use_gemm` check precedes the strides-arity check in
`__init__`, so the claim "fails with ConfigurationError" is false as stated
for this construction. -/
theorem claim_C4_counterexample :
    ({ strides := [1, 1, 1], use_gemm := true : Config }).strides.length = 3 ∧
    (init { strides := [1, 1, 1], use_gemm := true }).2 =
      some Err.useGemmTodo ∧
    (init { strides := [1, 1, 1], use_gemm := true }).2 ≠
      some Err.stridesLen :=
  ⟨rfl, rfl, by decide⟩

/-- C4 (amended): a construction whose strides argument does not have
exactly 2 elements always fails; it fails with the strides `ValueError`
provided `use_gemm` is not selected and the eager build (run when
`in_channels` is supplied) does not itself raise first. -/
theorem claim_C4_strides_arity (cfg : Config)
    (hlen : cfg.strides.length ≠ 2) :
    (init cfg).2 ≠ none ∧
    (cfg.use_gemm = false →
      (truthyOpt cfg.in_channels = true →
        (build (initState cfg) none).2 = none) →
      (init cfg).2 = some Err.stridesLen) := by
  by_cases ht : truthyOpt cfg.in_channels = true
  · cases hB : build (initState cfg) none with
    | mk s1 e1 =>
      cases e1 with
      | some e =>
        rw [init_err_of_build_err ht hB]
        refine ⟨by simp, ?_⟩
        intro hg hok
        exact absurd (hok ht) (by simp)
      | none =>
        rw [init_of_build_ok ht hB]
        have hug : s1.use_gemm = cfg.use_gemm := (build_ok_fields hB).1
        have hst : s1.strides = cfg.strides := (build_ok_fields hB).2.1
        by_cases hg : cfg.use_gemm
        · refine ⟨by simp [hug, hg], ?_⟩
          intro hgf
          rw [hg] at hgf
          cases hgf
        · refine ⟨by simp [hug, hg, hst, hlen], fun _ _ => ?_⟩
          simp [hug, hg, hst, hlen]
  · have ht' : truthyOpt cfg.in_channels = false := by
      revert ht
      cases truthyOpt cfg.in_channels <;> simp
    rw [init_lazy ht']
    by_cases hg : cfg.use_gemm
    · refine ⟨by simp [hg], ?_⟩
      intro hgf
      rw [hg] at hgf
      cases hgf
    · exact ⟨by simp [hg, hlen], fun _ _ => by simp [hg, hlen]⟩

/-- Witness for C4 (amended): length-3 strides, no gemm, lazy build. -/
theorem claim_C4_witness :
    (init { strides := [1, 1, 1] : Config }).2 = some Err.stridesLen :=
  (claim_C4_strides_arity { strides := [1, 1, 1] } (by decide)).2 rfl
    (fun htr => absurd htr (by decide))

/-- C5 counterexample: with `use_gemm` selected together with an explicit
`in_channels` and an invalid `data_format`, the eager `build` inside the
constructor raises the invalid-data_format error before the `use_gemm`
check is ever reached — so construction does not fail with the gemm error,
contradicting "fails immediately with NotImplementedError". -/
theorem claim_C5_counterexample :
    (init { use_gemm := true, in_channels := some 3,
            data_format := "bogus" }).2 = some Err.dataFormatErr ∧
    (init { use_gemm := true, in_channels := some 3,
            data_format := "bogus" }).2 ≠ some Err.useGemmTodo :=
  ⟨rfl, by decide⟩

/-- C5 (amended): a construction selecting `use_gemm` always fails; it fails
with the gemm error provided the eager build (run when `in_channels` is
supplied) does not itself raise first. -/
theorem claim_C5_use_gemm (cfg : Config) (hg : cfg.use_gemm = true) :
    (init cfg).2 ≠ none ∧
    ((truthyOpt cfg.in_channels = true →
        (build (initState cfg) none).2 = none) →
      (init cfg).2 = some Err.useGemmTodo) := by
  by_cases ht : truthyOpt cfg.in_channels = true
  · cases hB : build (initState cfg) none with
    | mk s1 e1 =>
      cases e1 with
      | some e =>
        rw [init_err_of_build_err ht hB]
        refine ⟨by simp, ?_⟩
        intro hok
        exact absurd (hok ht) (by simp)
      | none =>
        rw [init_of_build_ok ht hB]
        have hug : s1.use_gemm = cfg.use_gemm := (build_ok_fields hB).1
        exact ⟨by simp [hug, hg], fun _ => by simp [hug, hg]⟩
  · have ht' : truthyOpt cfg.in_channels = false := by
      revert ht
      cases truthyOpt cfg.in_channels <;> simp
    rw [init_lazy ht']
    exact ⟨by simp [hg], fun _ => by simp [hg]⟩

/-- Witness for C5 (amended): `use_gemm=True` without eager build. -/
theorem claim_C5_witness :
    (init { use_gemm := true : Config }).2 = some Err.useGemmTodo :=
  (claim_C5_use_gemm { use_gemm := true } rfl).2
    (fun htr => absurd htr (by decide))

/-- C9 counterexample: a `build` invocation can raise while leaving the
state changed.  On a layer configured with the default `channels_last` and
no explicit `in_channels`, `build(None)` rewrites `data_format` to "NHWC"
and only then subscripts the (missing) input shape, raising `TypeError` with
the mutation already in place — so build is not atomic as claimed. -/
theorem claim_C9_counterexample :
    (build (initState ({} : Config)) none).2 = some Err.subscriptNone ∧
    (build (initState ({} : Config)) none).1 ≠ initState ({} : Config) :=
  ⟨rfl, by decide⟩

/-- C9 (amended): a failing `build` allocates and registers no parameter and
leaves `filter_shape` and the built flag unchanged (every raise happens
before `_get_weights`); state is left fully unchanged when the failure is
the invalid-data_format check — but a failing input-shape read occurs after
`data_format` has been canonicalized, so full atomicity does not hold
there. -/
theorem claim_C9_build_atomicity (s s' : LayerState)
    (shape : Option (List Nat)) (e : Err)
    (h : build s shape = (s', some e)) :
    (s'.W = s.W ∧ s'.b = s.b ∧ s'.registered = s.registered ∧
     s'.filter_shape = s.filter_shape ∧ s'.built = s.built) ∧
    (s.data_format ≠ "channels_last" → s.data_format ≠ "channels_first" →
      s' = s) := by
  refine ⟨build_err_frame h, ?_⟩
  intro h1 h2
  rw [build_not_valid shape h1 h2] at h
  simp only [Prod.mk.injEq] at h
  exact h.1.symm

/-- Witness for C9 (amended) at an invalid data_format: the state is fully
unchanged by the failing build. -/
theorem claim_C9_witness :
    (build (initState { data_format := "bogus" }) none).1 =
      initState { data_format := "bogus" } :=
  (claim_C9_build_atomicity (initState { data_format := "bogus" })
      (build (initState { data_format := "bogus" }) none).1 none
      Err.dataFormatErr rfl).2 (by decide) (by decide)

end Dorefa
